import Mathlib

/-!
Shallow embedding of the order-service of the Seneca-Book-Store repository
(src/order-service: database.py, schemas.py, crud.py, main.py), together with
proofs checking the natural-language specification against it.

Modelling conventions:
* timestamps (`datetime.utcnow()` values) are integers counting seconds;
  `timedelta(days=d)` is addition of `d * 86400`;
* monetary values (Float columns in the source) are exact rationals, matching
  the formulas of the spec;
* the SQLAlchemy store is a list of `Order` rows; `query(...).first()` followed
  by attribute mutation and commit is the `findReplace` combinator below;
* each HTTP endpoint of main.py is a pure function from the store (and the
  catalog collaborator, modelled as a function `Int → Option BookInfo`) to an
  `Except`-style result paired with the resulting store.
-/

namespace SenecaBooks

/-- Instants (datetime.utcnow values), counted in seconds. -/
abbrev DateTime := Int

/-- Length of one calendar day in the units of `DateTime`. -/
def secondsPerDay : Int := 86400

/-- Adds `d` calendar days to an instant (`timedelta(days=d)` in the source). -/
def addDays (t : DateTime) (d : Int) : DateTime := t + d * secondsPerDay

/-- Monetary values (Float columns in the source), modelled as exact rationals. -/
abbrev Money := Rat

/-- database.py OrderType: BUY = "buy", RENT = "rent". -/
inductive OrderType where
  | BUY
  | RENT
deriving DecidableEq

/-- database.py OrderStatus. -/
inductive OrderStatus where
  | PENDING
  | CONFIRMED
  | COMPLETED
  | CANCELLED
  | RETURNED
deriving DecidableEq

/-- database.py Order row (the `updated_at` bookkeeping column, maintained by
the ORM rather than by the functions under study, is not modelled). -/
structure Order where
  id : Int
  user_id : Int
  book_id : Int
  order_type : OrderType
  status : OrderStatus
  book_title : String
  book_author : String
  book_isbn : Option String
  unit_price : Money
  quantity : Int
  total_amount : Money
  rental_days : Option Int
  rental_start_date : Option DateTime
  rental_end_date : Option DateTime
  rental_returned_date : Option DateTime
  notes : Option String
  created_at : DateTime
deriving DecidableEq

/-- The persistent store: the rows of the orders table. -/
abbrev Store := List Order

/-- schemas.py OrderCreate request payload (before validation). -/
structure OrderCreate where
  book_id : Int
  order_type : OrderType
  quantity : Int
  rental_days : Option Int
  notes : Option String
deriving DecidableEq

/-- schemas.py BookInfo: the Catalog Lookup response consumed by the order
service (auth.get_book_info). -/
structure BookInfo where
  id : Int
  title : String
  author : String
  isbn : Option String
  price : Money
  rent_price : Money
  available : Bool
  stock_quantity : Int
deriving DecidableEq

/-- schemas.py OrderStatusUpdate payload. -/
structure OrderStatusUpdate where
  status : OrderStatus
  notes : Option String
deriving DecidableEq

/-- schemas.py OrderReturnRequest payload. -/
structure OrderReturnRequest where
  return_date : Option DateTime
  notes : Option String
deriving DecidableEq

/-- The cross-field validator of schemas.OrderCreate (`validate_rental_days`):
rent orders need rental_days present (and at least 1), buy orders must not
supply it. -/
def validRentalDaysForType (t : OrderType) (rd : Option Int) : Bool :=
  match t, rd with
  | OrderType.RENT, none => false
  | OrderType.RENT, some d => decide (1 ≤ d)
  | OrderType.BUY, some _ => false
  | OrderType.BUY, none => true

/-- Whole-payload validation of schemas.OrderCreate: the pydantic Field
constraints (book_id > 0, quantity in [1,10], rental_days in [1,365] when
present, notes at most 500 characters) together with the cross-field
validator. -/
def validateOrderCreate (oc : OrderCreate) : Bool :=
  decide (0 < oc.book_id) &&
  (decide (1 ≤ oc.quantity) && decide (oc.quantity ≤ 10)) &&
  (match oc.rental_days with
   | none => true
   | some d => decide (1 ≤ d) && decide (d ≤ 365)) &&
  validRentalDaysForType oc.order_type oc.rental_days &&
  (match oc.notes with
   | none => true
   | some s => decide (s.length ≤ 500))

namespace crud

/-- crud.create_order: prices the order (purchase vs rental), stamps the
book snapshot, and builds the auto-confirmed row. `now` is the value of
`datetime.utcnow()` at creation and `oid` the id the database assigns.
Validation guarantees `rental_days` is present for rent orders, so the
`getD 0` default is never taken on the paths the service executes. -/
def create_order (order : OrderCreate) (user_id : Int) (book_info : BookInfo)
    (now : DateTime) (oid : Int) : Order :=
  if order.order_type = OrderType.BUY then
    { id := oid
      user_id := user_id
      book_id := order.book_id
      order_type := order.order_type
      status := OrderStatus.CONFIRMED
      book_title := book_info.title
      book_author := book_info.author
      book_isbn := book_info.isbn
      unit_price := book_info.price
      quantity := order.quantity
      total_amount := book_info.price * (order.quantity : Money)
      rental_days := order.rental_days
      rental_start_date := none
      rental_end_date := none
      rental_returned_date := none
      notes := order.notes
      created_at := now }
  else
    { id := oid
      user_id := user_id
      book_id := order.book_id
      order_type := order.order_type
      status := OrderStatus.CONFIRMED
      book_title := book_info.title
      book_author := book_info.author
      book_isbn := book_info.isbn
      unit_price := book_info.rent_price
      quantity := order.quantity
      total_amount :=
        book_info.rent_price * ((order.rental_days.getD 0 : Int) : Money)
          * (order.quantity : Money)
      rental_days := order.rental_days
      rental_start_date := some now
      rental_end_date := some (addDays now (order.rental_days.getD 0))
      rental_returned_date := none
      notes := order.notes
      created_at := now }

/-- The row-selection predicate of crud.update_order_status (and of
crud.get_order_by_id): match on the order id, and on the owning user unless
the call is made without a user filter (admin context). -/
def inScope (order_id : Int) (user_id : Option Int) (o : Order) : Bool :=
  o.id == order_id &&
  (match user_id with
   | none => true
   | some u => o.user_id == u)

/-- The row-selection predicate of crud.return_rental: same id and owner,
order_type RENT, status among CONFIRMED and COMPLETED. -/
def returnEligible (order_id : Int) (user_id : Int) (o : Order) : Bool :=
  o.id == order_id && o.user_id == user_id &&
  o.order_type == OrderType.RENT &&
  (o.status == OrderStatus.CONFIRMED || o.status == OrderStatus.COMPLETED)

/-- The mutation performed by crud.update_order_status on the matched row:
set the status, and overwrite the notes only when the supplied value is
truthy in Python (present and non-empty). -/
def applyStatusUpdate (su : OrderStatusUpdate) (o : Order) : Order :=
  let o1 := { o with status := su.status }
  match su.notes with
  | none => o1
  | some s => if s = "" then o1 else { o1 with notes := some s }

/-- The mutation performed by crud.return_rental on the matched row: set the
status to RETURNED, stamp the returned date (`return_date or utcnow()`), and
overwrite the notes only when the supplied value is truthy. -/
def applyReturn (rr : OrderReturnRequest) (now : DateTime) (o : Order) : Order :=
  let o1 := { o with
    status := OrderStatus.RETURNED
    rental_returned_date := some (rr.return_date.getD now) }
  match rr.notes with
  | none => o1
  | some s => if s = "" then o1 else { o1 with notes := some s }

/-- SQL `query.filter(p).first()` followed by mutating the found row and
committing: replaces the first row satisfying `p` by its image under `f`,
returning the updated row and the updated store, or `none` when no row
matches. -/
def findReplace (p : Order → Bool) (f : Order → Order) : Store → Option (Order × Store)
  | [] => none
  | o :: rest =>
    if p o then
      some (f o, f o :: rest)
    else
      match findReplace p f rest with
      | some (u, rest2) => some (u, o :: rest2)
      | none => none

/-- crud.update_order_status: find the order by id (scoped to the owning user
unless `user_id` is `none`, the admin context) and apply the status update. -/
def update_order_status (store : Store) (order_id : Int) (su : OrderStatusUpdate)
    (user_id : Option Int) : Option (Order × Store) :=
  findReplace (inScope order_id user_id) (applyStatusUpdate su) store

/-- crud.return_rental: find the eligible rental and apply the return. -/
def return_rental (store : Store) (order_id : Int) (rr : OrderReturnRequest)
    (user_id : Int) (now : DateTime) : Option (Order × Store) :=
  findReplace (returnEligible order_id user_id) (applyReturn rr now) store

/-- The row filter of crud.get_user_orders: owned by the user, and matching
the optional type and status filters. -/
def listFilter (user_id : Int) (order_type : Option OrderType)
    (status : Option OrderStatus) (o : Order) : Bool :=
  o.user_id == user_id &&
  (match order_type with
   | none => true
   | some t => o.order_type == t) &&
  (match status with
   | none => true
   | some s => o.status == s)

/-- Comparison used for `order_by(desc(Order.created_at))`. -/
def createdAtDesc (a b : Order) : Bool := decide (b.created_at ≤ a.created_at)

/-- crud.get_user_orders: filter, count before pagination, then sort newest
first and apply offset/limit. -/
def get_user_orders (store : Store) (user_id : Int) (skip limit : Nat)
    (order_type : Option OrderType) (status : Option OrderStatus) :
    List Order × Nat :=
  let q := store.filter (listFilter user_id order_type status)
  (((q.mergeSort createdAtDesc).drop skip).take limit, q.length)

/-- schemas.py OrderSummary. -/
structure OrderSummary where
  total_orders : Nat
  total_purchases : Nat
  total_rentals : Nat
  total_amount_spent : Money
  active_rentals : Nat
deriving DecidableEq

/-- The active-rental test of crud.get_user_order_summary (and of
crud.get_active_rentals): a rental, still CONFIRMED or COMPLETED, not yet
returned. -/
def activeRental (o : Order) : Bool :=
  o.order_type == OrderType.RENT &&
  (o.status == OrderStatus.CONFIRMED || o.status == OrderStatus.COMPLETED) &&
  o.rental_returned_date == none

/-- crud.get_user_order_summary. -/
def get_user_order_summary (store : Store) (user_id : Int) : OrderSummary :=
  let orders := store.filter (fun o => o.user_id == user_id)
  { total_orders := orders.length
    total_purchases := (orders.filter (fun o => o.order_type == OrderType.BUY)).length
    total_rentals := (orders.filter (fun o => o.order_type == OrderType.RENT)).length
    total_amount_spent :=
      ((orders.filter (fun o => !(o.status == OrderStatus.CANCELLED))).map
        (fun o => o.total_amount)).sum
    active_rentals := (orders.filter activeRental).length }

/-- The overdue test of crud.get_overdue_rentals: an active rental whose end
date lies strictly before now (a NULL end date compares false in SQL). -/
def overduePred (now : DateTime) (o : Order) : Bool :=
  o.order_type == OrderType.RENT &&
  (o.status == OrderStatus.CONFIRMED || o.status == OrderStatus.COMPLETED) &&
  o.rental_returned_date == none &&
  (match o.rental_end_date with
   | some e => decide (e < now)
   | none => false)

/-- Comparison used for `order_by(Order.rental_end_date)` (ascending); the
rows being sorted all carry an end date, so the default for `none` is inert. -/
def rentalEndLe (a b : Order) : Bool :=
  decide (a.rental_end_date.getD 0 ≤ b.rental_end_date.getD 0)

/-- crud.get_overdue_rentals: overdue rentals, optionally restricted to one
user, sorted by rental_end_date ascending. -/
def get_overdue_rentals (store : Store) (user_id : Option Int)
    (now : DateTime) : List Order :=
  (store.filter (fun o =>
    overduePred now o &&
    (match user_id with
     | none => true
     | some u => o.user_id == u))).mergeSort rentalEndLe

end crud

/-- The error taxonomy of the order endpoints in main.py (HTTP 422/404/400
responses). -/
inductive ApiError where
  | InvalidRequest
  | NotFound
  | Unavailable
  | InsufficientStock
deriving DecidableEq

/-- Result of a mutating endpoint: the response and the store afterwards. -/
abbrev ApiResult := Except ApiError Order × Store

/-- The id the database assigns to the next inserted row. -/
def nextId (store : Store) : Int := Int.ofNat store.length + 1

/-- The body of the create_order endpoint of main.py after validation: look
at the Catalog Lookup answer, check availability and stock, then persist the
new row built by crud.create_order. -/
def createWithBook (lookup : Option BookInfo) (req : OrderCreate)
    (user_id : Int) (now : DateTime) (store : Store) : ApiResult :=
  match lookup with
  | none => (Except.error ApiError.NotFound, store)
  | some book_info =>
    if !book_info.available then
      (Except.error ApiError.Unavailable, store)
    else if book_info.stock_quantity < req.quantity then
      (Except.error ApiError.InsufficientStock, store)
    else
      let o := crud.create_order req user_id book_info now (nextId store)
      (Except.ok o, store ++ [o])

/-- POST /orders: pydantic validation of the payload (schemas.OrderCreate),
then the handler body, with the catalog collaborator passed in as a
function. -/
def endpointCreateOrder (catalog : Int → Option BookInfo) (req : OrderCreate)
    (user_id : Int) (now : DateTime) (store : Store) : ApiResult :=
  if validateOrderCreate req then
    createWithBook (catalog req.book_id) req user_id now store
  else
    (Except.error ApiError.InvalidRequest, store)

/-- PUT /orders/(order_id)/status: 404 when crud.update_order_status finds no
row in scope. -/
def endpointUpdateStatus (store : Store) (order_id : Int)
    (su : OrderStatusUpdate) (user_id : Option Int) : ApiResult :=
  match crud.update_order_status store order_id su user_id with
  | some (o, s2) => (Except.ok o, s2)
  | none => (Except.error ApiError.NotFound, store)

/-- POST /orders/(order_id)/return: 404 when crud.return_rental finds no
eligible row. -/
def endpointReturnRental (store : Store) (order_id : Int)
    (rr : OrderReturnRequest) (user_id : Int) (now : DateTime) : ApiResult :=
  match crud.return_rental store order_id rr user_id now with
  | some (o, s2) => (Except.ok o, s2)
  | none => (Except.error ApiError.NotFound, store)

/-- GET /orders: the handler computes `skip = (page - 1) * size` and delegates
to crud.get_user_orders. -/
def endpointListOrders (store : Store) (user_id : Int) (page size : Nat)
    (order_type : Option OrderType) (status : Option OrderStatus) :
    List Order × Nat :=
  crud.get_user_orders store user_id ((page - 1) * size) size order_type status

/-- The operations that can touch the store after an order exists. Every
query endpoint of the service (get, list, summary, active, overdue, admin
reports) is read-only, which `readOnly` stands for. -/
inductive Op where
  | updateStatus (order_id : Int) (su : OrderStatusUpdate) (user_id : Option Int)
  | returnRental (order_id : Int) (rr : OrderReturnRequest) (user_id : Int)
      (now : DateTime)
  | readOnly

/-- The store after one operation. -/
def applyOp (store : Store) : Op → Store
  | Op.updateStatus oid su uid => (endpointUpdateStatus store oid su uid).2
  | Op.returnRental oid rr uid now => (endpointReturnRental store oid rr uid now).2
  | Op.readOnly => store

/-- The store after a sequence of operations. -/
def applyOps (store : Store) (ops : List Op) : Store := ops.foldl applyOp store

/-- Relation between an order row and any later version of that row: the
snapshot fields, the classification, the pricing fields, `rental_days`, the
rental window, and the creation time never change; the returned date can only
change for rentals (so it stays put on purchase orders). -/
def immutableAgree (a b : Order) : Prop :=
  b.id = a.id ∧ b.user_id = a.user_id ∧ b.book_id = a.book_id ∧
  b.order_type = a.order_type ∧
  b.book_title = a.book_title ∧ b.book_author = a.book_author ∧
  b.book_isbn = a.book_isbn ∧
  b.unit_price = a.unit_price ∧ b.quantity = a.quantity ∧
  b.total_amount = a.total_amount ∧
  b.rental_days = a.rental_days ∧ b.rental_start_date = a.rental_start_date ∧
  b.rental_end_date = a.rental_end_date ∧ b.created_at = a.created_at ∧
  (a.order_type = OrderType.BUY → b.rental_returned_date = a.rental_returned_date)
/-- Agreement on every Order field except status and notes. -/
def agreeExceptStatusNotes (a b : Order) : Prop :=
  b.id = a.id ∧ b.user_id = a.user_id ∧ b.book_id = a.book_id ∧
  b.order_type = a.order_type ∧
  b.book_title = a.book_title ∧ b.book_author = a.book_author ∧
  b.book_isbn = a.book_isbn ∧
  b.unit_price = a.unit_price ∧ b.quantity = a.quantity ∧
  b.total_amount = a.total_amount ∧
  b.rental_days = a.rental_days ∧ b.rental_start_date = a.rental_start_date ∧
  b.rental_end_date = a.rental_end_date ∧
  b.rental_returned_date = a.rental_returned_date ∧ b.created_at = a.created_at
/-- Agreement on every Order field except status, rental_returned_date and
notes. -/
def agreeExceptReturnFields (a b : Order) : Prop :=
  b.id = a.id ∧ b.user_id = a.user_id ∧ b.book_id = a.book_id ∧
  b.order_type = a.order_type ∧
  b.book_title = a.book_title ∧ b.book_author = a.book_author ∧
  b.book_isbn = a.book_isbn ∧
  b.unit_price = a.unit_price ∧ b.quantity = a.quantity ∧
  b.total_amount = a.total_amount ∧
  b.rental_days = a.rental_days ∧ b.rental_start_date = a.rental_start_date ∧
  b.rental_end_date = a.rental_end_date ∧ b.created_at = a.created_at
/-- A confirmed, not-yet-returned rental row used for reachability facts. -/
def rentalRowC : Order :=
  { id := 1, user_id := 7, book_id := 3, order_type := OrderType.RENT,
    status := OrderStatus.CONFIRMED, book_title := "R", book_author := "A",
    book_isbn := none, unit_price := 2, quantity := 1, total_amount := 14,
    rental_days := some 7, rental_start_date := some 0,
    rental_end_date := some 604800, rental_returned_date := none,
    notes := none, created_at := 0 }
/-- The validation conditions exactly as the claim lists them: quantity in
[1,10]; for a rental, rental_days present and in [1,365]; for a purchase, no
rental_days. Stated from the claim's words, to compare with the code's
validateOrderCreate. -/
def claimedCreateChecks (oc : OrderCreate) : Bool :=
  (decide (1 ≤ oc.quantity) && decide (oc.quantity ≤ 10)) &&
  (match oc.order_type, oc.rental_days with
   | OrderType.RENT, none => false
   | OrderType.RENT, some d => decide (1 ≤ d) && decide (d ≤ 365)
   | OrderType.BUY, some _ => false
   | OrderType.BUY, none => true)
/-- A purchase request passing every check the claim lists, but with a
book_id of 0, which the pydantic model also rejects. -/
def reqZeroBook : OrderCreate :=
  { book_id := 0, order_type := OrderType.BUY, quantity := 1,
    rental_days := none, notes := none }
/-- A catalog collaborator that answers every lookup. -/
def catAll : Int → Option BookInfo := fun i =>
  some { id := i, title := "T", author := "A", isbn := none, price := 1,
         rent_price := 1, available := true, stock_quantity := 10 }
/-- Purchase of amount 10 (claim example). -/
def sumP1 : Order :=
  { id := 1, user_id := 7, book_id := 1, order_type := OrderType.BUY,
    status := OrderStatus.CONFIRMED, book_title := "P1", book_author := "A",
    book_isbn := none, unit_price := 10, quantity := 1, total_amount := 10,
    rental_days := none, rental_start_date := none, rental_end_date := none,
    rental_returned_date := none, notes := none, created_at := 0 }

/-- Purchase of amount 20 (claim example). -/
def sumP2 : Order :=
  { sumP1 with
    id := 2
    unit_price := 20
    total_amount := 20
    created_at := 1 }

/-- Non-cancelled rental of amount 15 (claim example). -/
def sumR1 : Order :=
  { id := 3, user_id := 7, book_id := 2, order_type := OrderType.RENT,
    status := OrderStatus.CONFIRMED, book_title := "R1", book_author := "A",
    book_isbn := none, unit_price := 3, quantity := 1, total_amount := 15,
    rental_days := some 5, rental_start_date := some 0,
    rental_end_date := some 432000, rental_returned_date := none,
    notes := none, created_at := 2 }

/-- Cancelled order of amount 100, typed as a purchase. -/
def sumCanBuy : Order :=
  { sumP1 with
    id := 4
    status := OrderStatus.CANCELLED
    unit_price := 100
    total_amount := 100
    created_at := 3 }

/-- Cancelled order of amount 100, typed as a rental. -/
def sumCanRent : Order :=
  { sumR1 with
    id := 4
    status := OrderStatus.CANCELLED
    unit_price := 20
    total_amount := 100
    created_at := 3 }

/-- The claim's example store with the cancelled order a purchase. -/
def exampleStoreBuy : Store := [sumP1, sumP2, sumR1, sumCanBuy]

/-- The claim's example store with the cancelled order a rental. -/
def exampleStoreRent : Store := [sumP1, sumP2, sumR1, sumCanRent]
/-! ### Concrete witness material -/

/-- Catalog book of the spec's concrete scenario (price 29.99, rent 3.99). -/
def bookC : BookInfo :=
  { id := 1, title := "Clean Architecture", author := "R. Martin",
    isbn := some "9780134494166", price := 2999/100, rent_price := 399/100,
    available := true, stock_quantity := 5 }

/-- Catalog holding exactly bookC under id 1. -/
def catC : Int → Option BookInfo := fun i => if i == 1 then some bookC else none

/-- The spec's rental scenario: book 1, 2 copies, 7 days. -/
def reqRent : OrderCreate :=
  { book_id := 1, order_type := OrderType.RENT, quantity := 2,
    rental_days := some 7, notes := none }

/-- The row the rental scenario creates. -/
def oC : Order := crud.create_order reqRent 1 bookC 0 1

/-- A valid purchase request for two copies of book 1. -/
def reqBuy : OrderCreate :=
  { book_id := 1, order_type := OrderType.BUY, quantity := 2,
    rental_days := none, notes := none }

/-- A catalog with no books. -/
def catNone : Int → Option BookInfo := fun _ => none

/-- bookC flagged unavailable. -/
def bookUnavail : BookInfo := { bookC with available := false }

/-- A catalog answering every id with the unavailable book. -/
def catUnavail : Int → Option BookInfo := fun _ => some bookUnavail

/-- bookC with a single copy in stock. -/
def bookLow : BookInfo := { bookC with stock_quantity := 1 }

/-- A catalog answering every id with the low-stock book. -/
def catLow : Int → Option BookInfo := fun _ => some bookLow

/-- A return request with neither date nor notes. -/
def rrEmpty : OrderReturnRequest := { return_date := none, notes := none }

/-- A plain cancellation update. -/
def suC : OrderStatusUpdate :=
  { status := OrderStatus.CANCELLED, notes := none }

/-- rentalRowC retyped as a purchase. -/
def purchaseRowC : Order :=
  { rentalRowC with
    order_type := OrderType.BUY
    rental_days := none
    rental_start_date := none
    rental_end_date := none }

/-! ### Helper lemmas about the query-and-mutate combinator -/

open crud

theorem findReplace_eq_none {p : Order → Bool} {f : Order → Order} :
    ∀ {store : Store}, findReplace p f store = none ↔ ∀ o ∈ store, p o = false := by
  intro store
  induction store with
  | nil => simp [findReplace]
  | cons o rest ih =>
    by_cases hp : p o = true
    · simp [findReplace, hp]
    · have hp2 : p o = false := by simpa using hp
      constructor
      · intro h x hx
        rcases List.mem_cons.mp hx with h1 | h2
        · rw [h1]; exact hp2
        · refine ih.mp ?_ x h2
          cases hfr : findReplace p f rest with
          | none => rfl
          | some pr =>
            obtain ⟨u, r2⟩ := pr
            simp [findReplace, hp2, hfr] at h
      · intro hall
        have hnone : findReplace p f rest = none :=
          ih.mpr fun x hx => hall x (List.mem_cons_of_mem _ hx)
        simp [findReplace, hp2, hnone]

theorem findReplace_some_spec {p : Order → Bool} {f : Order → Order} :
    ∀ {store : Store} {o2 : Order} {s2 : Store},
      findReplace p f store = some (o2, s2) →
      ∃ pre o suf, store = pre ++ o :: suf ∧ (∀ x ∈ pre, p x = false) ∧
        p o = true ∧ o2 = f o ∧ s2 = pre ++ f o :: suf := by
  intro store
  induction store with
  | nil => intro o2 s2 h; simp [findReplace] at h
  | cons o rest ih =>
    intro o2 s2 h
    by_cases hp : p o = true
    · simp only [findReplace, hp, if_true, Option.some.injEq, Prod.mk.injEq] at h
      exact ⟨[], o, rest, by simp, by simp, hp, h.1.symm, by simp [h.2.symm]⟩
    · have hp2 : p o = false := by simpa using hp
      cases hfr : findReplace p f rest with
      | none => simp [findReplace, hp2, hfr] at h
      | some pr =>
        obtain ⟨u, rest2⟩ := pr
        simp [findReplace, hp2, hfr] at h
        obtain ⟨pre, o0, suf, hrest, hpre, hpo0, hu, hrest2⟩ := ih hfr
        refine ⟨o :: pre, o0, suf, by simp [hrest], ?_, hpo0, ?_, ?_⟩
        · intro x hx
          rcases List.mem_cons.mp hx with h1 | h2
          · rw [h1]; exact hp2
          · exact hpre x h2
        · rw [← h.1]; exact hu
        · rw [← h.2, hrest2]; simp

theorem findReplace_isSome {p : Order → Bool} {f : Order → Order} {store : Store} :
    (findReplace p f store).isSome = true ↔ ∃ o ∈ store, p o = true := by
  cases hfr : findReplace p f store with
  | none =>
    rw [findReplace_eq_none] at hfr
    simp only [Option.isSome_none, Bool.false_eq_true, false_iff]
    intro ⟨o, ho, hpo⟩
    exact absurd hpo (by simp [hfr o ho])
  | some pr =>
    obtain ⟨u, s2⟩ := pr
    obtain ⟨pre, o, suf, hs, hpre, hpo, hu, hs2⟩ := findReplace_some_spec hfr
    simp only [Option.isSome_some, true_iff]
    exact ⟨o, by simp [hs], hpo⟩

theorem findReplace_forall₂ {R : Order → Order → Prop} {p : Order → Bool}
    {f : Order → Order} (hrefl : ∀ o, R o o) (hf : ∀ o, p o = true → R o (f o)) :
    ∀ {store : Store} {o2 : Order} {s2 : Store},
      findReplace p f store = some (o2, s2) → List.Forall₂ R store s2 := by
  intro store o2 s2 h
  obtain ⟨pre, o, suf, hs, hpre, hpo, hu, hs2⟩ := findReplace_some_spec h
  subst hs; subst hs2
  have h1 : List.Forall₂ R pre pre := List.forall₂_same.mpr fun x _ => hrefl x
  have h2 : List.Forall₂ R suf suf := List.forall₂_same.mpr fun x _ => hrefl x
  exact List.rel_append h1 (List.Forall₂.cons (hf o hpo) h2)

/-! ### The fields an order keeps after creation -/

theorem immutableAgree_refl (o : Order) : immutableAgree o o := by
  simp [immutableAgree]

theorem immutableAgree_trans {a b c : Order} (h1 : immutableAgree a b)
    (h2 : immutableAgree b c) : immutableAgree a c := by
  obtain ⟨e1, e2, e3, e4, e5, e6, e7, e8, e9, e10, e11, e12, e13, e14, e15⟩ := h1
  obtain ⟨f1, f2, f3, f4, f5, f6, f7, f8, f9, f10, f11, f12, f13, f14, f15⟩ := h2
  refine ⟨f1.trans e1, f2.trans e2, f3.trans e3, f4.trans e4, f5.trans e5,
    f6.trans e6, f7.trans e7, f8.trans e8, f9.trans e9, f10.trans e10,
    f11.trans e11, f12.trans e12, f13.trans e13, f14.trans e14, ?_⟩
  intro hbuy
  exact (f15 (e4.trans hbuy)).trans (e15 hbuy)

theorem forall₂_immutable_trans :
    ∀ {l1 l2 l3 : Store}, List.Forall₂ immutableAgree l1 l2 →
      List.Forall₂ immutableAgree l2 l3 → List.Forall₂ immutableAgree l1 l3 := by
  intro l1 l2 l3 h12
  induction h12 generalizing l3 with
  | nil => intro h23; cases h23; exact List.Forall₂.nil
  | cons hab h ih =>
    intro h23
    cases h23 with
    | cons hbc h2 => exact List.Forall₂.cons (immutableAgree_trans hab hbc) (ih h2)

theorem applyStatusUpdate_immutable (su : OrderStatusUpdate) (o : Order) :
    immutableAgree o (applyStatusUpdate su o) := by
  unfold applyStatusUpdate immutableAgree
  cases su.notes with
  | none => simp
  | some s => by_cases hs : s = "" <;> simp [hs]

theorem applyReturn_immutable (rr : OrderReturnRequest) (now : DateTime)
    (o : Order) (hrent : o.order_type = OrderType.RENT) :
    immutableAgree o (applyReturn rr now o) := by
  unfold applyReturn immutableAgree
  cases rr.notes with
  | none => simp [hrent]
  | some s => by_cases hs : s = "" <;> simp [hs, hrent]

theorem applyOp_immutable (store : Store) (op : Op) :
    List.Forall₂ immutableAgree store (applyOp store op) := by
  cases op with
  | readOnly => exact List.forall₂_same.mpr fun x _ => immutableAgree_refl x
  | updateStatus oid su uid =>
    cases hfr : crud.update_order_status store oid su uid with
    | none =>
      simp only [applyOp, endpointUpdateStatus, hfr]
      exact List.forall₂_same.mpr fun x _ => immutableAgree_refl x
    | some pr =>
      obtain ⟨u2, s2⟩ := pr
      simp only [applyOp, endpointUpdateStatus, hfr]
      exact findReplace_forall₂ immutableAgree_refl
        (fun o _ => applyStatusUpdate_immutable su o) hfr
  | returnRental oid rr uid now =>
    cases hfr : crud.return_rental store oid rr uid now with
    | none =>
      simp only [applyOp, endpointReturnRental, hfr]
      exact List.forall₂_same.mpr fun x _ => immutableAgree_refl x
    | some pr =>
      obtain ⟨u2, s2⟩ := pr
      simp only [applyOp, endpointReturnRental, hfr]
      refine findReplace_forall₂ immutableAgree_refl
        (fun o hpo => applyReturn_immutable rr now o ?_) hfr
      simp only [returnEligible, Bool.and_eq_true, beq_iff_eq] at hpo
      exact hpo.1.2

theorem applyStatusUpdate_status (su : OrderStatusUpdate) (o : Order) :
    (applyStatusUpdate su o).status = su.status := by
  unfold applyStatusUpdate
  cases su.notes with
  | none => rfl
  | some s => by_cases hs : s = "" <;> simp [hs]

theorem applyReturn_status (rr : OrderReturnRequest) (now : DateTime) (o : Order) :
    (applyReturn rr now o).status = OrderStatus.RETURNED := by
  unfold applyReturn
  cases rr.notes with
  | none => rfl
  | some s => by_cases hs : s = "" <;> simp [hs]

theorem applyReturn_returned_date (rr : OrderReturnRequest) (now : DateTime)
    (o : Order) :
    (applyReturn rr now o).rental_returned_date = some (rr.return_date.getD now) := by
  unfold applyReturn
  cases rr.notes with
  | none => rfl
  | some s => by_cases hs : s = "" <;> simp [hs]

theorem returnEligible_false_of_ne {oid uid : Int} {x : Order} (h : ¬ x.id = oid) :
    returnEligible oid uid x = false := by
  simp [returnEligible, h]

theorem returnEligible_applyReturn (oid uid : Int) (rr : OrderReturnRequest)
    (now : DateTime) (o : Order) :
    returnEligible oid uid (applyReturn rr now o) = false := by
  have hst := applyReturn_status rr now o
  simp [returnEligible, hst]

/-- From a store whose rows have pairwise distinct ids, split around a found
row: every other row has a different id. -/
theorem ids_ne_of_nodup {pre suf : Store} {o : Order}
    (hnd : ((pre ++ o :: suf).map Order.id).Nodup) :
    ∀ x, (x ∈ pre ∨ x ∈ suf) → ¬ x.id = o.id := by
  rw [List.map_append, List.map_cons, List.nodup_append] at hnd
  obtain ⟨hpre, hcons, hdisj⟩ := hnd
  intro x hx hxid
  rcases hx with hx | hx
  · exact hdisj (List.mem_map_of_mem Order.id hx) (by simp [hxid])
  · exact (List.nodup_cons.mp hcons).1 (by
      rw [← hxid]
      exact List.mem_map_of_mem Order.id hx)

/-! ### C5 -/

/-- C5: for every store and every sequence of operations that can follow an
order's creation (status updates, rental returns, and the read-only queries),
each row keeps its snapshot fields (book_title, book_author, book_isbn), its
order_type, unit_price, quantity, total_amount, rental_days, rental window and
creation time; and on a PURCHASE row the rental_returned_date is also never
written, so all four rental fields of a purchase stay null forever. -/
theorem claim5_immutable_fields (store : Store) (ops : List Op) :
    List.Forall₂ immutableAgree store (applyOps store ops) := by
  induction ops generalizing store with
  | nil => exact List.forall₂_same.mpr fun x _ => immutableAgree_refl x
  | cons op rest ih =>
    exact forall₂_immutable_trans (applyOp_immutable store op)
      (by simpa [applyOps, List.foldl] using ih (applyOp store op))

/-! ### C8 -/

/-- C8: UpdateStatus enforces no transition table: it succeeds exactly when a
row matches the id within scope (owning user, or any user in the admin
context `none`), whatever the current and requested statuses are, and then
stores the requested status; otherwise it fails with NotFound and leaves the
store unchanged. -/
theorem claim8_update_status_unconstrained (store : Store) (oid : Int)
    (su : OrderStatusUpdate) (uscope : Option Int) :
    ((endpointUpdateStatus store oid su uscope).1.isOk = true ↔
      ∃ o ∈ store, inScope oid uscope o = true) ∧
    (∀ o2 s2, endpointUpdateStatus store oid su uscope = (Except.ok o2, s2) →
      o2.status = su.status) ∧
    ((endpointUpdateStatus store oid su uscope).1.isOk = false →
      endpointUpdateStatus store oid su uscope =
        (Except.error ApiError.NotFound, store)) := by
  have hiff : (crud.update_order_status store oid su uscope).isSome = true ↔
      ∃ o ∈ store, inScope oid uscope o = true := findReplace_isSome
  cases hfr : crud.update_order_status store oid su uscope with
  | none =>
    rw [hfr] at hiff
    refine ⟨?_, ?_, ?_⟩
    · simp only [endpointUpdateStatus, hfr]
      simpa [Except.isOk, Except.toBool] using hiff
    · intro o2 s2 h
      simp [endpointUpdateStatus, hfr] at h
    · intro _
      simp [endpointUpdateStatus, hfr]
  | some pr =>
    obtain ⟨u2, s2⟩ := pr
    rw [hfr] at hiff
    have hspec := findReplace_some_spec (p := inScope oid uscope)
      (f := applyStatusUpdate su) hfr
    obtain ⟨pre, o, suf, hs, hpre, hpo, hu, hs2⟩ := hspec
    refine ⟨?_, ?_, ?_⟩
    · simp only [endpointUpdateStatus, hfr]
      simpa [Except.isOk, Except.toBool] using hiff
    · intro o2 s2b h
      simp only [endpointUpdateStatus, hfr, Prod.mk.injEq, Except.ok.injEq] at h
      rw [← h.1, hu]
      exact applyStatusUpdate_status su o
    · intro hbad
      simp [endpointUpdateStatus, hfr, Except.isOk, Except.toBool] at hbad

/-! ### C3 -/

/-- A link between the eligibility condition as the spec words it and the
boolean row filter of crud.return_rental. -/
theorem returnEligible_iff (oid uid : Int) (o : Order) :
    returnEligible oid uid o = true ↔
      o.id = oid ∧ o.user_id = uid ∧ o.order_type = OrderType.RENT ∧
        (o.status = OrderStatus.CONFIRMED ∨ o.status = OrderStatus.COMPLETED) := by
  simp [returnEligible, and_assoc]

/-- C3: ReturnRental succeeds exactly when a row with the given id belongs to
the user, is a RENTAL, and is CONFIRMED or COMPLETED; it then records status
RETURNED and the supplied return date (the current time when none is given);
in every other case — a purchase order included — it answers NotFound and the
store is unchanged; and, when ids are unique, a second call on the returned
rental answers NotFound as well. -/
theorem claim3_return_rental (store : Store) (oid : Int)
    (rr : OrderReturnRequest) (uid : Int) (now : DateTime) :
    ((endpointReturnRental store oid rr uid now).1.isOk = true ↔
      ∃ o ∈ store, o.id = oid ∧ o.user_id = uid ∧
        o.order_type = OrderType.RENT ∧
        (o.status = OrderStatus.CONFIRMED ∨ o.status = OrderStatus.COMPLETED)) ∧
    (∀ o2 s2, endpointReturnRental store oid rr uid now = (Except.ok o2, s2) →
      o2.status = OrderStatus.RETURNED ∧
      o2.rental_returned_date = some (rr.return_date.getD now)) ∧
    ((endpointReturnRental store oid rr uid now).1.isOk = false →
      endpointReturnRental store oid rr uid now =
        (Except.error ApiError.NotFound, store)) ∧
    (∀ o2 s2, endpointReturnRental store oid rr uid now = (Except.ok o2, s2) →
      (store.map Order.id).Nodup →
      ∀ rr2 now2, endpointReturnRental s2 oid rr2 uid now2 =
        (Except.error ApiError.NotFound, s2)) := by
  have hiff : (crud.return_rental store oid rr uid now).isSome = true ↔
      ∃ o ∈ store, returnEligible oid uid o = true := findReplace_isSome
  cases hfr : crud.return_rental store oid rr uid now with
  | none =>
    rw [hfr] at hiff
    refine ⟨?_, ?_, ?_, ?_⟩
    · simp only [endpointReturnRental, hfr]
      simp only [Option.isSome_none, Bool.false_eq_true, false_iff] at hiff
      push_neg at hiff
      constructor
      · intro hbad
        simp [Except.isOk, Except.toBool] at hbad
      · intro ⟨o, ho, h1, h2, h3, h4⟩
        exact absurd ((returnEligible_iff oid uid o).mpr ⟨h1, h2, h3, h4⟩)
          (by simp [hiff o ho])
    · intro o2 s2 h
      simp [endpointReturnRental, hfr] at h
    · intro _
      simp [endpointReturnRental, hfr]
    · intro o2 s2 h
      simp [endpointReturnRental, hfr] at h
  | some pr =>
    obtain ⟨u2, s2⟩ := pr
    have hspec := findReplace_some_spec (p := returnEligible oid uid)
      (f := applyReturn rr now) hfr
    obtain ⟨pre, o, suf, hs, hpre, hpo, hu, hs2⟩ := hspec
    refine ⟨?_, ?_, ?_, ?_⟩
    · simp only [endpointReturnRental, hfr]
      constructor
      · intro _
        exact ⟨o, by simp [hs], (returnEligible_iff oid uid o).mp hpo⟩
      · intro _
        simp [Except.isOk, Except.toBool]
    · intro o2 s2b h
      simp only [endpointReturnRental, hfr, Prod.mk.injEq, Except.ok.injEq] at h
      rw [← h.1, hu]
      exact ⟨applyReturn_status rr now o, applyReturn_returned_date rr now o⟩
    · intro hbad
      simp [endpointReturnRental, hfr, Except.isOk, Except.toBool] at hbad
    · intro o2 s2b h hnd rr2 now2
      simp only [endpointReturnRental, hfr, Prod.mk.injEq, Except.ok.injEq] at h
      have hnone : crud.return_rental s2b oid rr2 uid now2 = none := by
        rw [← h.2, hs2]
        refine findReplace_eq_none.mpr ?_
        intro x hx
        rcases List.mem_append.mp hx with hxp | hxc
        · refine returnEligible_false_of_ne ?_
          have hoid : o.id = oid := ((returnEligible_iff oid uid o).mp hpo).1
          rw [← hoid]
          exact ids_ne_of_nodup (hs ▸ hnd) x (Or.inl hxp)
        · rcases List.mem_cons.mp hxc with hxe | hxs
          · rw [hxe]
            exact returnEligible_applyReturn oid uid rr now o
          · refine returnEligible_false_of_ne ?_
            have hoid : o.id = oid := ((returnEligible_iff oid uid o).mp hpo).1
            rw [← hoid]
            exact ids_ne_of_nodup (hs ▸ hnd) x (Or.inr hxs)
      simp [endpointReturnRental, hnone]

/-! ### C10 -/

theorem applyStatusUpdate_frame (su : OrderStatusUpdate) (o : Order) :
    agreeExceptStatusNotes o (applyStatusUpdate su o) := by
  unfold applyStatusUpdate agreeExceptStatusNotes
  cases su.notes with
  | none => simp
  | some s => by_cases hs : s = "" <;> simp [hs]

theorem applyStatusUpdate_notes_kept (su : OrderStatusUpdate) (o : Order)
    (h : su.notes = none ∨ su.notes = some "") :
    (applyStatusUpdate su o).notes = o.notes := by
  unfold applyStatusUpdate
  rcases h with h | h <;> simp [h]

theorem applyStatusUpdate_notes_set (su : OrderStatusUpdate) (o : Order)
    (s : String) (h : su.notes = some s) (hne : ¬ s = "") :
    (applyStatusUpdate su o).notes = some s := by
  unfold applyStatusUpdate
  simp [h, hne]

theorem applyReturn_frame (rr : OrderReturnRequest) (now : DateTime) (o : Order) :
    agreeExceptReturnFields o (applyReturn rr now o) := by
  unfold applyReturn agreeExceptReturnFields
  cases rr.notes with
  | none => simp
  | some s => by_cases hs : s = "" <;> simp [hs]

theorem applyReturn_notes_kept (rr : OrderReturnRequest) (now : DateTime)
    (o : Order) (h : rr.notes = none ∨ rr.notes = some "") :
    (applyReturn rr now o).notes = o.notes := by
  unfold applyReturn
  rcases h with h | h <;> simp [h]

theorem applyReturn_notes_set (rr : OrderReturnRequest) (now : DateTime)
    (o : Order) (s : String) (h : rr.notes = some s) (hne : ¬ s = "") :
    (applyReturn rr now o).notes = some s := by
  unfold applyReturn
  simp [h, hne]

/-- C10: UpdateStatus rewrites only the matched row's status (and its notes
when the supplied notes are a non-empty string; a `none` or empty-string
notes value leaves the stored notes alone), touching no rental field — so
updating a rental to RETURNED through it leaves rental_returned_date null,
a state reachable without ReturnRental; ReturnRental likewise rewrites only
status, rental_returned_date, and (when non-empty) notes. -/
theorem claim10_frame_effects :
    (∀ store oid su uscope o2 s2,
      crud.update_order_status store oid su uscope = some (o2, s2) →
      ∃ o ∈ store, inScope oid uscope o = true ∧
        agreeExceptStatusNotes o o2 ∧ o2.status = su.status ∧
        ((su.notes = none ∨ su.notes = some "") → o2.notes = o.notes) ∧
        (∀ s, su.notes = some s → ¬ s = "" → o2.notes = some s)) ∧
    (∀ store oid rr uid now o2 s2,
      crud.return_rental store oid rr uid now = some (o2, s2) →
      ∃ o ∈ store, returnEligible oid uid o = true ∧
        agreeExceptReturnFields o o2 ∧ o2.status = OrderStatus.RETURNED ∧
        o2.rental_returned_date = some (rr.return_date.getD now) ∧
        ((rr.notes = none ∨ rr.notes = some "") → o2.notes = o.notes) ∧
        (∀ s, rr.notes = some s → ¬ s = "" → o2.notes = some s)) ∧
    (∃ o2 s2,
      endpointUpdateStatus [rentalRowC] 1
        { status := OrderStatus.RETURNED, notes := none } (some 7) =
        (Except.ok o2, s2) ∧
      o2.order_type = OrderType.RENT ∧ o2.status = OrderStatus.RETURNED ∧
      o2.rental_returned_date = none) := by
  refine ⟨?_, ?_, ?_⟩
  · intro store oid su uscope o2 s2 hfr
    obtain ⟨pre, o, suf, hs, hpre, hpo, hu, hs2⟩ :=
      findReplace_some_spec (p := inScope oid uscope)
        (f := applyStatusUpdate su) hfr
    subst hu
    exact ⟨o, by simp [hs], hpo, applyStatusUpdate_frame su o,
      applyStatusUpdate_status su o,
      fun h => applyStatusUpdate_notes_kept su o h,
      fun s h hne => applyStatusUpdate_notes_set su o s h hne⟩
  · intro store oid rr uid now o2 s2 hfr
    obtain ⟨pre, o, suf, hs, hpre, hpo, hu, hs2⟩ :=
      findReplace_some_spec (p := returnEligible oid uid)
        (f := applyReturn rr now) hfr
    subst hu
    exact ⟨o, by simp [hs], hpo, applyReturn_frame rr now o,
      applyReturn_status rr now o, applyReturn_returned_date rr now o,
      fun h => applyReturn_notes_kept rr now o h,
      fun s h hne => applyReturn_notes_set rr now o s h hne⟩
  · exact ⟨_, _, rfl, rfl, rfl, rfl⟩

/-! ### C1 and C2 -/

theorem validate_buy_no_rental_days {oc : OrderCreate}
    (hval : validateOrderCreate oc = true)
    (hbuy : oc.order_type = OrderType.BUY) : oc.rental_days = none := by
  simp only [validateOrderCreate, Bool.and_eq_true] at hval
  have hD := hval.1.2
  cases hrd : oc.rental_days with
  | none => rfl
  | some d =>
    rw [hbuy, hrd] at hD
    exact absurd hD (by simp [validRentalDaysForType])

theorem validate_rent_rental_days {oc : OrderCreate}
    (hval : validateOrderCreate oc = true)
    (hrent : oc.order_type = OrderType.RENT) :
    ∃ d, oc.rental_days = some d ∧ 1 ≤ d ∧ d ≤ 365 := by
  simp only [validateOrderCreate, Bool.and_eq_true] at hval
  have hD := hval.1.2
  have hC := hval.1.1.2
  cases hrd : oc.rental_days with
  | none =>
    rw [hrent, hrd] at hD
    exact absurd hD (by simp [validRentalDaysForType])
  | some d =>
    rw [hrd] at hC
    simp only [Bool.and_eq_true, decide_eq_true_eq] at hC
    exact ⟨d, rfl, hC.1, hC.2⟩

/-- C1: on every successful CreateOrder, the persisted row is auto-CONFIRMED,
carries the title, author and isbn verbatim from the Catalog Lookup response,
and is priced by the source's formulas: a purchase takes the book price and
`unit_price × quantity` with every rental field null; a rental takes the
rent price, `unit_price × rental_days × quantity`, starts now, ends
`rental_days` calendar days later, and is not yet returned. The row is
appended to the store. -/
theorem claim1_create_order_fields (catalog : Int → Option BookInfo)
    (req : OrderCreate) (uid : Int) (now : DateTime) (store : Store)
    (o : Order) (s2 : Store)
    (h : endpointCreateOrder catalog req uid now store = (Except.ok o, s2)) :
    ∃ b, catalog req.book_id = some b ∧
      o.status = OrderStatus.CONFIRMED ∧
      o.book_title = b.title ∧ o.book_author = b.author ∧ o.book_isbn = b.isbn ∧
      o.quantity = req.quantity ∧
      (req.order_type = OrderType.BUY →
        o.unit_price = b.price ∧
        o.total_amount = o.unit_price * (o.quantity : Money) ∧
        o.rental_days = none ∧ o.rental_start_date = none ∧
        o.rental_end_date = none ∧ o.rental_returned_date = none) ∧
      (req.order_type = OrderType.RENT →
        ∃ d, req.rental_days = some d ∧ o.rental_days = some d ∧
          o.unit_price = b.rent_price ∧
          o.total_amount = o.unit_price * ((d : Int) : Money) * (o.quantity : Money) ∧
          o.rental_start_date = some now ∧
          o.rental_end_date = some (addDays now d) ∧
          o.rental_returned_date = none) ∧
      s2 = store ++ [o] := by
  unfold endpointCreateOrder at h
  by_cases hval : validateOrderCreate req = true
  case neg => simp [hval] at h
  rw [if_pos hval] at h
  unfold createWithBook at h
  cases hcat : catalog req.book_id with
  | none => rw [hcat] at h; simp at h
  | some b =>
    rw [hcat] at h
    dsimp only at h
    by_cases hav : b.available = true
    case neg => simp [hav] at h
    simp only [hav, Bool.not_true, Bool.false_eq_true, if_false] at h
    by_cases hstock : b.stock_quantity < req.quantity
    case pos => rw [if_pos hstock] at h; simp at h
    rw [if_neg hstock] at h
    simp only [Prod.mk.injEq, Except.ok.injEq] at h
    obtain ⟨ho, hs2⟩ := h
    refine ⟨b, rfl, ?_, ?_, ?_, ?_, ?_, ?_, ?_, ?_⟩
    · rw [← ho]; unfold crud.create_order
      by_cases hot : req.order_type = OrderType.BUY <;> simp [hot]
    · rw [← ho]; unfold crud.create_order
      by_cases hot : req.order_type = OrderType.BUY <;> simp [hot]
    · rw [← ho]; unfold crud.create_order
      by_cases hot : req.order_type = OrderType.BUY <;> simp [hot]
    · rw [← ho]; unfold crud.create_order
      by_cases hot : req.order_type = OrderType.BUY <;> simp [hot]
    · rw [← ho]; unfold crud.create_order
      by_cases hot : req.order_type = OrderType.BUY <;> simp [hot]
    · intro hbuy
      have hrd : req.rental_days = none := validate_buy_no_rental_days hval hbuy
      rw [← ho]
      unfold crud.create_order
      simp [hbuy, hrd]
    · intro hrent
      obtain ⟨d, hrd, _, _⟩ := validate_rent_rental_days hval hrent
      have hot : ¬ req.order_type = OrderType.BUY := by rw [hrent]; intro hx; cases hx
      rw [← ho]
      unfold crud.create_order
      refine ⟨d, hrd, ?_⟩
      simp [hot, hrd]
    · rw [← hs2, ← ho]

/-- C2: with a validated payload, CreateOrder fails with NotFound when the
catalog has no such book, with Unavailable when its availability flag is
false, and with InsufficientStock when its stock is below the requested
quantity — and in each case the store is exactly the one before the call, so
no order is persisted. -/
theorem claim2_create_order_failures (catalog : Int → Option BookInfo)
    (req : OrderCreate) (uid : Int) (now : DateTime) (store : Store)
    (hval : validateOrderCreate req = true) :
    (catalog req.book_id = none →
      endpointCreateOrder catalog req uid now store =
        (Except.error ApiError.NotFound, store)) ∧
    (∀ b, catalog req.book_id = some b → b.available = false →
      endpointCreateOrder catalog req uid now store =
        (Except.error ApiError.Unavailable, store)) ∧
    (∀ b, catalog req.book_id = some b → b.available = true →
      b.stock_quantity < req.quantity →
      endpointCreateOrder catalog req uid now store =
        (Except.error ApiError.InsufficientStock, store)) := by
  refine ⟨?_, ?_, ?_⟩
  · intro hcat
    simp [endpointCreateOrder, hval, createWithBook, hcat]
  · intro b hcat hav
    simp [endpointCreateOrder, hval, createWithBook, hcat, hav]
  · intro b hcat hav hstock
    simp [endpointCreateOrder, hval, createWithBook, hcat, hav, hstock]

/-! ### C4 -/

/-- C4 counterexample: reqZeroBook satisfies all the checks the claim lists
(quantity 1, purchase without rental_days), yet validation rejects it, and
CreateOrder answers InvalidRequest without consulting the catalog — the
catalog would have answered, so a consulted lookup could not surface
InvalidRequest. -/
theorem claim4_counterexample :
    claimedCreateChecks reqZeroBook = true ∧
    validateOrderCreate reqZeroBook = false ∧
    endpointCreateOrder catAll reqZeroBook 1 0 [] =
      (Except.error ApiError.InvalidRequest, []) := by
  exact ⟨rfl, rfl, rfl⟩

/-- C4 amended: validation rejects, with InvalidRequest and before any side
effect, exactly the requests failing the claim's listed checks, a positive
book_id, or the 500-character notes bound; every request passing all of
these proceeds to the catalog lookup. -/
theorem claim4_validation_amended (catalog : Int → Option BookInfo)
    (req : OrderCreate) (uid : Int) (now : DateTime) (store : Store) :
    (validateOrderCreate req = true ↔
      (claimedCreateChecks req = true ∧ 0 < req.book_id ∧
        (∀ s, req.notes = some s → s.length ≤ 500))) ∧
    (validateOrderCreate req = false →
      endpointCreateOrder catalog req uid now store =
        (Except.error ApiError.InvalidRequest, store)) ∧
    (validateOrderCreate req = true →
      endpointCreateOrder catalog req uid now store =
        createWithBook (catalog req.book_id) req uid now store) := by
  refine ⟨?_, ?_, ?_⟩
  · cases hot : req.order_type <;> cases hrd : req.rental_days <;>
      cases hn : req.notes <;>
      simp [validateOrderCreate, claimedCreateChecks, validRentalDaysForType,
        hot, hrd, hn, and_assoc] <;>
      tauto
  · intro h
    simp [endpointCreateOrder, h]
  · intro h
    simp [endpointCreateOrder, h]

/-! ### C6 -/

/-- C6 counterexample: the claim's example is unsatisfiable against the code.
The code counts purchases and rentals by order_type alone, ignoring status,
so the fourth (cancelled) order — which must be typed either as a purchase or
as a rental — forces total_purchases = 3 or total_rentals = 2: under neither
typing can a user with 2 purchases (10, 20), 1 non-cancelled rental (15) and
1 cancelled order (100) get the claimed total_purchases = 2 together with
total_rentals = 1. -/
theorem claim6_counterexample :
    ((get_user_order_summary exampleStoreBuy 7).total_orders = 4 ∧
     (get_user_order_summary exampleStoreBuy 7).total_purchases = 3 ∧
     ¬ (get_user_order_summary exampleStoreBuy 7).total_purchases = 2) ∧
    ((get_user_order_summary exampleStoreRent 7).total_orders = 4 ∧
     (get_user_order_summary exampleStoreRent 7).total_rentals = 2 ∧
     ¬ (get_user_order_summary exampleStoreRent 7).total_rentals = 1) := by
  refine ⟨⟨rfl, rfl, by decide⟩, ⟨rfl, rfl, by decide⟩⟩

/-- C6 amended: Summary counts the user's orders, splits the count by
order_type (so the cancelled example order, being a purchase, makes
total_purchases 3), sums total_amount over the non-CANCELLED orders, and
counts the user's not-yet-returned CONFIRMED/COMPLETED rentals as active; on
the example store the result is total_orders 4, total_purchases 3,
total_rentals 1, total_amount_spent 45. -/
theorem claim6_summary_amended (store : Store) (uid : Int) :
    ((get_user_order_summary store uid).total_orders =
      (store.filter (fun o => o.user_id == uid)).length) ∧
    ((get_user_order_summary store uid).total_purchases =
      (store.filter (fun o => o.user_id == uid)).countP
        (fun o => o.order_type == OrderType.BUY)) ∧
    ((get_user_order_summary store uid).total_rentals =
      (store.filter (fun o => o.user_id == uid)).countP
        (fun o => o.order_type == OrderType.RENT)) ∧
    ((get_user_order_summary store uid).total_amount_spent =
      (((store.filter (fun o => o.user_id == uid)).filter
          (fun o => decide (¬ o.status = OrderStatus.CANCELLED))).map
        Order.total_amount).sum) ∧
    ((get_user_order_summary store uid).active_rentals =
      (store.filter (fun o => o.user_id == uid)).countP activeRental) ∧
    (get_user_order_summary exampleStoreBuy 7).total_orders = 4 ∧
    (get_user_order_summary exampleStoreBuy 7).total_purchases = 3 ∧
    (get_user_order_summary exampleStoreBuy 7).total_rentals = 1 ∧
    (get_user_order_summary exampleStoreBuy 7).total_amount_spent = 45 := by
  refine ⟨rfl, ?_, ?_, ?_, ?_, rfl, rfl, rfl, ?_⟩
  · simp [get_user_order_summary, List.countP_eq_length_filter]
  · simp [get_user_order_summary, List.countP_eq_length_filter]
  · have hfc : ∀ l : Store,
        l.filter (fun o => !(o.status == OrderStatus.CANCELLED)) =
          l.filter (fun o => decide (¬ o.status = OrderStatus.CANCELLED)) := by
      intro l
      refine List.filter_congr ?_
      intro x _
      by_cases h : x.status = OrderStatus.CANCELLED <;> simp [h]
    simp only [get_user_order_summary]
    rw [hfc]
  · simp [get_user_order_summary, List.countP_eq_length_filter]
  · have e0 : (((7 : Int)) == (7 : Int)) = true := rfl
    have e1 : (!(OrderStatus.CONFIRMED == OrderStatus.CANCELLED)) = true := rfl
    have e2 : (!(OrderStatus.CANCELLED == OrderStatus.CANCELLED)) = false := rfl
    norm_num [get_user_order_summary, exampleStoreBuy, sumP1, sumP2, sumR1,
      sumCanBuy, List.filter_cons, e0, e1, e2, List.sum_cons, List.sum_nil]

/-! ### C7 -/

theorem rentalEndLe_trans (a b c : Order) (h1 : rentalEndLe a b = true)
    (h2 : rentalEndLe b c = true) : rentalEndLe a c = true := by
  simp only [rentalEndLe, decide_eq_true_eq] at h1 h2 ⊢
  exact le_trans h1 h2

theorem rentalEndLe_total (a b : Order) :
    (rentalEndLe a b || rentalEndLe b a) = true := by
  simp only [rentalEndLe, Bool.or_eq_true, decide_eq_true_eq]
  exact le_total _ _

/-- The row filter of crud.get_overdue_rentals, characterised by the
properties the spec lists. -/
theorem overdueRow_iff (now : DateTime) (uidOpt : Option Int) (o : Order) :
    (overduePred now o &&
      (match uidOpt with
       | none => true
       | some u => o.user_id == u)) = true ↔
    (o.order_type = OrderType.RENT ∧
     (o.status = OrderStatus.CONFIRMED ∨ o.status = OrderStatus.COMPLETED) ∧
     o.rental_returned_date = none ∧
     (∃ e, o.rental_end_date = some e ∧ e < now) ∧
     (∀ u, uidOpt = some u → o.user_id = u)) := by
  cases uidOpt <;> cases hre : o.rental_end_date <;>
    simp [overduePred, hre, and_assoc]

/-- C7: OverdueRentals returns exactly the active (CONFIRMED or COMPLETED,
not yet returned) rentals whose end date lies strictly before now, scoped to
the user when one is given, sorted by rental_end_date ascending; and once
ReturnRental succeeds on a rental (ids being unique), no row with that id
appears in the overdue report anymore. -/
theorem claim7_overdue_rentals (store : Store) (uidOpt : Option Int)
    (now : DateTime) :
    (∀ o, o ∈ crud.get_overdue_rentals store uidOpt now ↔
      (o ∈ store ∧ o.order_type = OrderType.RENT ∧
        (o.status = OrderStatus.CONFIRMED ∨ o.status = OrderStatus.COMPLETED) ∧
        o.rental_returned_date = none ∧
        (∃ e, o.rental_end_date = some e ∧ e < now) ∧
        (∀ u, uidOpt = some u → o.user_id = u))) ∧
    (crud.get_overdue_rentals store uidOpt now).Pairwise
      (fun a b => a.rental_end_date.getD 0 ≤ b.rental_end_date.getD 0) ∧
    (∀ oid uid rr nowR o2 s2,
      crud.return_rental store oid rr uid nowR = some (o2, s2) →
      (store.map Order.id).Nodup →
      ∀ x ∈ crud.get_overdue_rentals s2 uidOpt now, ¬ x.id = oid) := by
  refine ⟨?_, ?_, ?_⟩
  · intro o
    unfold crud.get_overdue_rentals
    rw [List.mem_mergeSort, List.mem_filter]
    rw [overdueRow_iff now uidOpt o]
  · have h := List.sorted_mergeSort rentalEndLe_trans rentalEndLe_total
      (store.filter (fun o =>
        overduePred now o &&
        (match uidOpt with
         | none => true
         | some u => o.user_id == u)))
    refine List.Pairwise.imp ?_ h
    intro a b hab
    simpa [rentalEndLe] using hab
  · intro oid uid rr nowR o2 s2 hfr hnd x hx
    obtain ⟨pre, o, suf, hs, hpre, hpo, hu, hs2⟩ :=
      findReplace_some_spec (p := returnEligible oid uid)
        (f := applyReturn rr nowR) hfr
    have hoid : o.id = oid := by
      simp only [returnEligible, Bool.and_eq_true, beq_iff_eq] at hpo
      exact hpo.1.1.1
    unfold crud.get_overdue_rentals at hx
    rw [List.mem_mergeSort, List.mem_filter] at hx
    obtain ⟨hmem, hrow⟩ := hx
    rw [hs2] at hmem
    intro hxid
    rcases List.mem_append.mp hmem with hxp | hxc
    · exact ids_ne_of_nodup (hs ▸ hnd) x (Or.inl hxp) (hxid.trans hoid.symm)
    · rcases List.mem_cons.mp hxc with hxe | hxs
      · rw [hxe] at hrow
        have hret := applyReturn_returned_date rr nowR o
        simp [overduePred, hret] at hrow
      · exact ids_ne_of_nodup (hs ▸ hnd) x (Or.inr hxs) (hxid.trans hoid.symm)

/-! ### C9 -/

theorem createdAtDesc_trans (a b c : Order) (h1 : createdAtDesc a b = true)
    (h2 : createdAtDesc b c = true) : createdAtDesc a c = true := by
  simp only [createdAtDesc, decide_eq_true_eq] at h1 h2 ⊢
  exact le_trans h2 h1

theorem createdAtDesc_total (a b : Order) :
    (createdAtDesc a b || createdAtDesc b a) = true := by
  simp only [createdAtDesc, Bool.or_eq_true, decide_eq_true_eq]
  exact le_total _ _

/-- Two index-disjoint page windows of a duplicate-free list share no
element. -/
theorem take_drop_disjoint {l : List Order} (hnd : l.Nodup) {a n b m : Nat}
    (hab : a + n ≤ b) :
    List.Disjoint ((l.drop a).take n) ((l.drop b).take m) := by
  intro x hx1 hx2
  have hnd0 : (l.drop a).Nodup := (List.drop_sublist a l).nodup hnd
  have hx2b : x ∈ (l.drop a).drop (b - a) := by
    have hb : l.drop b = (l.drop a).drop (b - a) := by
      rw [List.drop_drop]
      congr 1
      omega
    rw [← hb]
    exact List.mem_of_mem_take hx2
  have hx2c : x ∈ (l.drop a).drop n := by
    have h2 : ((l.drop a).drop n).drop (b - a - n) = (l.drop a).drop (b - a) := by
      rw [List.drop_drop]
      congr 1
      omega
    rw [← h2] at hx2b
    exact List.mem_of_mem_drop hx2b
  have hsplit : ((l.drop a).take n ++ (l.drop a).drop n).Nodup := by
    rw [List.take_append_drop]
    exact hnd0
  exact (List.nodup_append.mp hsplit).2.2 hx1 hx2c

/-- C9: ListOrders filters by user, type and status, reports the matching
count before pagination, and serves the page at offset (page-1)x size sorted
newest first; pages beyond the data are empty rather than an error, and
distinct pages of a duplicate-free result share no order. -/
theorem claim9_list_orders (store : Store) (uid : Int) (page size : Nat)
    (ot : Option OrderType) (st : Option OrderStatus) :
    ((endpointListOrders store uid page size ot st).2 =
      (store.filter (listFilter uid ot st)).length) ∧
    (∀ o ∈ (endpointListOrders store uid page size ot st).1,
      o ∈ store ∧ listFilter uid ot st o = true) ∧
    ((endpointListOrders store uid page size ot st).1.Pairwise
      (fun a b => b.created_at ≤ a.created_at)) ∧
    ((endpointListOrders store uid page size ot st).1.length =
      min size
        ((store.filter (listFilter uid ot st)).length - (page - 1) * size)) ∧
    ((store.filter (listFilter uid ot st)).length ≤ (page - 1) * size →
      (endpointListOrders store uid page size ot st).1 = []) ∧
    ((store.filter (listFilter uid ot st)).Nodup →
      (endpointListOrders store uid page size ot st).1.Nodup) ∧
    (∀ page2, (store.filter (listFilter uid ot st)).Nodup → 1 ≤ page →
      page < page2 →
      List.Disjoint (endpointListOrders store uid page size ot st).1
        (endpointListOrders store uid page2 size ot st).1) := by
  refine ⟨rfl, ?_, ?_, ?_, ?_, ?_, ?_⟩
  · intro o ho
    have h1 := List.mem_of_mem_drop (List.mem_of_mem_take ho)
    rw [List.mem_mergeSort, List.mem_filter] at h1
    exact h1
  · have h := List.sorted_mergeSort createdAtDesc_trans createdAtDesc_total
      (store.filter (listFilter uid ot st))
    have h2 : ((store.filter (listFilter uid ot st)).mergeSort
        createdAtDesc).Pairwise (fun a b => b.created_at ≤ a.created_at) := by
      refine List.Pairwise.imp ?_ h
      intro a b hab
      simpa [createdAtDesc] using hab
    refine List.Pairwise.sublist ?_ h2
    exact (List.take_sublist _ _).trans (List.drop_sublist _ _)
  · simp only [endpointListOrders, crud.get_user_orders, List.length_take,
      List.length_drop, List.length_mergeSort]
  · intro hle
    have hm : ((store.filter (listFilter uid ot st)).mergeSort
        createdAtDesc).length ≤ (page - 1) * size := by
      rw [List.length_mergeSort]
      exact hle
    simp [endpointListOrders, crud.get_user_orders,
      List.drop_eq_nil_of_le hm]
  · intro hnd
    have hm := ((List.mergeSort_perm (store.filter (listFilter uid ot st))
      createdAtDesc).symm).nodup hnd
    exact ((List.take_sublist _ _).trans (List.drop_sublist _ _)).nodup hm
  · intro page2 hnd hp1 hlt
    have hm := ((List.mergeSort_perm (store.filter (listFilter uid ot st))
      createdAtDesc).symm).nodup hnd
    have harith : (page - 1) * size + size ≤ (page2 - 1) * size := by
      have h1 : page * size ≤ (page2 - 1) * size :=
        mul_le_mul_right' (by omega) size
      calc (page - 1) * size + size = ((page - 1) + 1) * size := by ring
        _ = page * size := by
            congr 1
            omega
        _ ≤ (page2 - 1) * size := h1
    exact take_drop_disjoint hm harith

/-! ### Witnesses -/

/-- C1 witness: the spec's scenario — renting 2 copies for 7 days at rent
price 3.99 yields a CONFIRMED order of total 55.86. -/
theorem claim1_witness :
    endpointCreateOrder catC reqRent 1 0 [] = (Except.ok oC, [oC]) ∧
    oC.status = OrderStatus.CONFIRMED ∧ oC.total_amount = 2793/50 := by
  have h0 : endpointCreateOrder catC reqRent 1 0 [] = (Except.ok oC, [oC]) := rfl
  have h := claim1_create_order_fields catC reqRent 1 0 [] oC [oC] h0
  obtain ⟨b, hb, hstat, _⟩ := h
  refine ⟨h0, hstat, ?_⟩
  norm_num [oC, crud.create_order, reqRent, bookC]
  rfl

/-- C2 witness: the three failure modes at concrete catalogs, each leaving
the store empty. -/
theorem claim2_witness :
    validateOrderCreate reqBuy = true ∧
    endpointCreateOrder catNone reqBuy 1 0 [] =
      (Except.error ApiError.NotFound, []) ∧
    endpointCreateOrder catUnavail reqBuy 1 0 [] =
      (Except.error ApiError.Unavailable, []) ∧
    endpointCreateOrder catLow reqBuy 1 0 [] =
      (Except.error ApiError.InsufficientStock, []) := by
  have hval : validateOrderCreate reqBuy = true := rfl
  have h1 := claim2_create_order_failures catNone reqBuy 1 0 [] hval
  have h2 := claim2_create_order_failures catUnavail reqBuy 1 0 [] hval
  have h3 := claim2_create_order_failures catLow reqBuy 1 0 [] hval
  exact ⟨hval, h1.1 rfl, h2.2.1 bookUnavail rfl rfl,
    h3.2.2 bookLow rfl rfl (by decide)⟩

/-- C3 witness: returning the confirmed rental succeeds once and stamps the
date; a second call fails with NotFound; returning a purchase row fails. -/
theorem claim3_witness :
    (endpointReturnRental [rentalRowC] 1 rrEmpty 7 5).1.isOk = true ∧
    (∃ o2 s2,
      endpointReturnRental [rentalRowC] 1 rrEmpty 7 5 = (Except.ok o2, s2) ∧
      o2.status = OrderStatus.RETURNED ∧
      o2.rental_returned_date = some 5 ∧
      endpointReturnRental s2 1 rrEmpty 7 9 =
        (Except.error ApiError.NotFound, s2)) ∧
    endpointReturnRental [purchaseRowC] 1 rrEmpty 7 5 =
      (Except.error ApiError.NotFound, [purchaseRowC]) := by
  have h := claim3_return_rental [rentalRowC] 1 rrEmpty 7 5
  have hP := claim3_return_rental [purchaseRowC] 1 rrEmpty 7 5
  have h0 : endpointReturnRental [rentalRowC] 1 rrEmpty 7 5 =
      (Except.ok (applyReturn rrEmpty 5 rentalRowC),
        [applyReturn rrEmpty 5 rentalRowC]) := rfl
  refine ⟨?_, ?_, ?_⟩
  · exact h.1.mpr ⟨rentalRowC, by simp, rfl, rfl, rfl, Or.inl rfl⟩
  · refine ⟨applyReturn rrEmpty 5 rentalRowC, [applyReturn rrEmpty 5 rentalRowC],
      h0, (h.2.1 _ _ h0).1, (h.2.1 _ _ h0).2, ?_⟩
    exact h.2.2.2 _ _ h0 (by simp) rrEmpty 9
  · exact hP.2.2.1 rfl

/-- C4 witness: the concrete rejected and accepted requests, through the
amended validation theorem. -/
theorem claim4_witness :
    validateOrderCreate reqZeroBook = false ∧
    endpointCreateOrder catAll reqZeroBook 1 0 [] =
      (Except.error ApiError.InvalidRequest, []) ∧
    validateOrderCreate reqBuy = true ∧
    endpointCreateOrder catNone reqBuy 1 0 [] =
      createWithBook (catNone reqBuy.book_id) reqBuy 1 0 [] := by
  have h := claim4_validation_amended catAll reqZeroBook 1 0 []
  have h2 := claim4_validation_amended catNone reqBuy 1 0 []
  exact ⟨rfl, h.2.1 rfl, rfl, h2.2.2 rfl⟩

/-- C7 witness: the overdue rental appears in the report, and after the
return no row with its id does. -/
theorem claim7_witness :
    rentalRowC ∈ crud.get_overdue_rentals [rentalRowC] none 700000 ∧
    (∀ x ∈ crud.get_overdue_rentals [applyReturn rrEmpty 5 rentalRowC]
        none 700000, ¬ x.id = 1) := by
  have h := claim7_overdue_rentals [rentalRowC] none 700000
  refine ⟨?_, ?_⟩
  · exact (h.1 rentalRowC).mpr
      ⟨by simp, rfl, Or.inl rfl, rfl, ⟨604800, rfl, by decide⟩, by simp⟩
  · exact h.2.2 1 7 rrEmpty 5 (applyReturn rrEmpty 5 rentalRowC)
      [applyReturn rrEmpty 5 rentalRowC] rfl (by simp)

/-- C8 witness: cancelling the confirmed rental succeeds in user scope, and
the same call on an empty store answers NotFound. -/
theorem claim8_witness :
    (endpointUpdateStatus [rentalRowC] 1 suC (some 7)).1.isOk = true ∧
    (∃ o2 s2, endpointUpdateStatus [rentalRowC] 1 suC (some 7) =
      (Except.ok o2, s2) ∧ o2.status = suC.status) ∧
    endpointUpdateStatus [] 1 suC (some 7) =
      (Except.error ApiError.NotFound, []) := by
  have h := claim8_update_status_unconstrained [rentalRowC] 1 suC (some 7)
  have hE := claim8_update_status_unconstrained [] 1 suC (some 7)
  refine ⟨?_, ?_, ?_⟩
  · exact h.1.mpr ⟨rentalRowC, by simp, rfl⟩
  · exact ⟨applyStatusUpdate suC rentalRowC, [applyStatusUpdate suC rentalRowC],
      rfl, h.2.1 _ _ rfl⟩
  · exact hE.2.2 rfl

/-- C9 witness: with two orders and page size 1, page 3 is empty and pages 1
and 2 are disjoint; the reported total is 2. -/
theorem claim9_witness :
    (endpointListOrders [sumP1, sumP2] 7 3 1 none none).1 = [] ∧
    List.Disjoint (endpointListOrders [sumP1, sumP2] 7 1 1 none none).1
      (endpointListOrders [sumP1, sumP2] 7 2 1 none none).1 ∧
    (endpointListOrders [sumP1, sumP2] 7 1 1 none none).2 = 2 := by
  have h3 := claim9_list_orders [sumP1, sumP2] 7 3 1 none none
  have h1 := claim9_list_orders [sumP1, sumP2] 7 1 1 none none
  refine ⟨?_, ?_, rfl⟩
  · exact h3.2.2.2.2.1 (by decide)
  · exact h1.2.2.2.2.2.2 2 (by decide) (by decide) (by decide)

/-- C10 witness: the concrete cancellation touches neither notes nor any
rental field, and the concrete return stamps status RETURNED. -/
theorem claim10_witness :
    (applyStatusUpdate suC rentalRowC).status = suC.status ∧
    (applyStatusUpdate suC rentalRowC).notes = rentalRowC.notes ∧
    (applyStatusUpdate suC rentalRowC).rental_returned_date =
      rentalRowC.rental_returned_date ∧
    (applyReturn rrEmpty 5 rentalRowC).status = OrderStatus.RETURNED := by
  have h1 := claim10_frame_effects.1 [rentalRowC] 1 suC (some 7)
    (applyStatusUpdate suC rentalRowC) [applyStatusUpdate suC rentalRowC] rfl
  have h2 := claim10_frame_effects.2.1 [rentalRowC] 1 rrEmpty 7 5
    (applyReturn rrEmpty 5 rentalRowC) [applyReturn rrEmpty 5 rentalRowC] rfl
  obtain ⟨o, ho, _, hframe, hstat, hkeep, _⟩ := h1
  obtain ⟨ob, hob, _, _, hret, _, _, _⟩ := h2
  have hoe : o = rentalRowC := by simpa using ho
  subst hoe
  obtain ⟨_, _, _, _, _, _, _, _, _, _, _, _, _, hrrd, _⟩ := hframe
  exact ⟨hstat, hkeep (Or.inl rfl), hrrd, hret⟩

end SenecaBooks
